import Mathlib

/- Verification development for the rifast-relayer transaction core.

Shallow embedding of:
  - the per-type transaction executors and the two queue processors of the
    transaction worker (source file provided as src/unnamed/part_003);
  - the queue-pair configuration and the retry hand-off helper of
    src/src/queues/tx.queue.ts;
  - the queue-monitor metrics and the health snapshot computed by the
    queue-status endpoint (source file provided as src/unnamed/part_004).

Modelling conventions: JavaScript numbers and bigints that are always
non-negative integers become Nat; the floating-point failure-rate
computation becomes Rat (exact arithmetic); a thrown JS error becomes the
error branch of Except; the ethers.js contract binding becomes a record of
response functions (gas estimation, call submission, confirmation wait);
the side effect of adding a job to the retry queue is returned explicitly
as a list of retry-queue add records, and log output as a list of log
entries. -/

/-- JS values passed as arguments to a contract call: bigints, strings,
and the two array shapes that occur in the job payloads. -/
inductive JSVal where
  | num : Nat → JSVal
  | str : String → JSVal
  | strList : List String → JSVal
  | numList : List Nat → JSVal
deriving Repr, DecidableEq

/-- Reads a run of decimal digits as a number, failing on any non-digit. -/
def decDigitsAux : List Char → Nat → Option Nat
  | [], acc => some acc
  | c :: cs, acc => if c.isDigit then decDigitsAux cs (acc * 10 + (c.toNat - 48)) else none

/-- A non-empty all-digit character run as a number. -/
def decDigits : List Char → Option Nat
  | [] => none
  | cs => decDigitsAux cs 0

/-- Splits a character run at the first decimal point, when there is one. -/
def splitAtDot : List Char → List Char × Option (List Char)
  | [] => ([], none)
  | c :: cs =>
    if c = '.' then ([], some cs)
    else
      let rest := splitAtDot cs
      (c :: rest.1, rest.2)

/-- Embeds ethers.parseUnits(s, 18): a decimal string scaled to an integer
with 18 decimals.  Strings that are not a decimal numeral, or that carry
more than 18 fractional digits, throw (error branch), as the ethers helper
does. -/
def parseUnits18 (s : String) : Except String Nat :=
  match splitAtDot s.toList with
  | (intPart, none) =>
    match decDigits intPart with
    | some n => .ok (n * 10 ^ 18)
    | none => .error "invalid decimal string"
  | (intPart, some fracPart) =>
    if fracPart.length ≤ 18 then
      match decDigits intPart, decDigits fracPart with
      | some n, some f => .ok (n * 10 ^ 18 + f * 10 ^ (18 - fracPart.length))
      | _, _ => .error "invalid decimal string"
    else .error "too many decimal places"

/-- One chain-mutating contract call as submitted by the executor: the
method name, its arguments, and the explicit gas limit when one is set
(the overrides object of the ethers call). -/
structure ChainCall where
  method : String
  args : List JSVal
  gasLimit : Option Nat
deriving Repr, DecidableEq

/-- The pending-transaction handle returned by a successful submission. -/
structure PendingTx where
  hash : String
deriving Repr, DecidableEq

/-- The chain client (ethers contract + provider) at its interface: gas
estimation, call submission and confirmation wait, each of which can fail. -/
structure Chain where
  estimateGas : String → List JSVal → Except String Nat
  submit : ChainCall → Except String PendingTx
  wait : String → Except String Unit

/-- The normalized result record returned by a successful executor run:
the transaction hash plus the job-specific echo fields (absent fields are
none, mirroring the JS object literals of the source). -/
structure TxResult where
  txHash : String
  referenceId : Option String := none
  raffleId : Option String := none
  address : Option String := none
  count : Option Nat := none
  confirmed : Option Bool := none
deriving Repr, DecidableEq

/-- The payload fields carried by transaction jobs.  The worker receives
the payload untyped (data: any) and each executor destructures only the
fields of its own job type, so the embedding carries all payload fields in
one record; each executor reads only the fields its source counterpart
destructures. -/
structure JobData where
  templateId : Nat
  referenceId : Nat
  ticketPrice : String
  maxTickets : Nat
  minTickets : Nat
  durationSeconds : Nat
  raffleId : Nat
  address : String
  reason : String
  addresses : List String
  reasons : List String
  raffleIds : List Nat
deriving Repr, DecidableEq

/-- An executor run yields either a result record or a thrown error, and
the list of chain-mutating calls it submitted along the way. -/
abbrev ExecOutcome := Except String TxResult × List ChainCall

/-- executeCreateRaffle: createRaffle(templateId, referenceId,
parseUnits(ticketPrice, 18), maxTickets, minTickets, durationSeconds),
await confirmation, echo the reference id. -/
def executeCreateRaffle (data : JobData) (ch : Chain) : ExecOutcome :=
  match parseUnits18 data.ticketPrice with
  | .error e => (.error e, [])
  | .ok price =>
    let call : ChainCall :=
      { method := "createRaffle"
        args := [.num data.templateId, .num data.referenceId, .num price,
                 .num data.maxTickets, .num data.minTickets, .num data.durationSeconds]
        gasLimit := none }
    match ch.submit call with
    | .error e => (.error e, [call])
    | .ok tx =>
      match ch.wait tx.hash with
      | .error e => (.error e, [call])
      | .ok _ => (.ok { txHash := tx.hash, referenceId := some (toString data.referenceId) }, [call])

/-- executeExecuteRaffle: estimate gas for executeRaffle(raffleId), submit
with a +20 percent gas limit, await confirmation, echo the raffle id. -/
def executeExecuteRaffle (data : JobData) (ch : Chain) : ExecOutcome :=
  match ch.estimateGas "executeRaffle" [.num data.raffleId] with
  | .error e => (.error e, [])
  | .ok gasEstimate =>
    let call : ChainCall :=
      { method := "executeRaffle"
        args := [.num data.raffleId]
        gasLimit := some (gasEstimate * 120 / 100) }
    match ch.submit call with
    | .error e => (.error e, [call])
    | .ok tx =>
      match ch.wait tx.hash with
      | .error e => (.error e, [call])
      | .ok _ => (.ok { txHash := tx.hash, raffleId := some (toString data.raffleId) }, [call])

/-- executeCancelRaffle: estimate gas for cancelRaffle(raffleId), submit
with a +20 percent gas limit, await confirmation, echo the raffle id. -/
def executeCancelRaffle (data : JobData) (ch : Chain) : ExecOutcome :=
  match ch.estimateGas "cancelRaffle" [.num data.raffleId] with
  | .error e => (.error e, [])
  | .ok gasEstimate =>
    let call : ChainCall :=
      { method := "cancelRaffle"
        args := [.num data.raffleId]
        gasLimit := some (gasEstimate * 120 / 100) }
    match ch.submit call with
    | .error e => (.error e, [call])
    | .ok tx =>
      match ch.wait tx.hash with
      | .error e => (.error e, [call])
      | .ok _ => (.ok { txHash := tx.hash, raffleId := some (toString data.raffleId) }, [call])

/-- executeRefundBatch: estimate gas for executeRefundBatch(raffleId),
submit with a +20 percent gas limit, await confirmation, echo the raffle
id. -/
def executeRefundBatch (data : JobData) (ch : Chain) : ExecOutcome :=
  match ch.estimateGas "executeRefundBatch" [.num data.raffleId] with
  | .error e => (.error e, [])
  | .ok gasEstimate =>
    let call : ChainCall :=
      { method := "executeRefundBatch"
        args := [.num data.raffleId]
        gasLimit := some (gasEstimate * 120 / 100) }
    match ch.submit call with
    | .error e => (.error e, [call])
    | .ok tx =>
      match ch.wait tx.hash with
      | .error e => (.error e, [call])
      | .ok _ => (.ok { txHash := tx.hash, raffleId := some (toString data.raffleId) }, [call])

/-- executePauseContract: pause(), await confirmation. -/
def executePauseContract (ch : Chain) : ExecOutcome :=
  let call : ChainCall := { method := "pause", args := [], gasLimit := none }
  match ch.submit call with
  | .error e => (.error e, [call])
  | .ok tx =>
    match ch.wait tx.hash with
    | .error e => (.error e, [call])
    | .ok _ => (.ok { txHash := tx.hash, confirmed := some true }, [call])

/-- executeUnpauseContract: unpause(), await confirmation. -/
def executeUnpauseContract (ch : Chain) : ExecOutcome :=
  let call : ChainCall := { method := "unpause", args := [], gasLimit := none }
  match ch.submit call with
  | .error e => (.error e, [call])
  | .ok tx =>
    match ch.wait tx.hash with
    | .error e => (.error e, [call])
    | .ok _ => (.ok { txHash := tx.hash, confirmed := some true }, [call])

/-- executeAddToBlocklist: addToBlocklist(address, reason), await
confirmation, echo the address. -/
def executeAddToBlocklist (data : JobData) (ch : Chain) : ExecOutcome :=
  let call : ChainCall :=
    { method := "addToBlocklist", args := [.str data.address, .str data.reason], gasLimit := none }
  match ch.submit call with
  | .error e => (.error e, [call])
  | .ok tx =>
    match ch.wait tx.hash with
    | .error e => (.error e, [call])
    | .ok _ => (.ok { txHash := tx.hash, address := some data.address, confirmed := some true }, [call])

/-- executeAddToBlocklistBatch: addToBlocklistBatch(addresses, reasons),
await confirmation, echo the address count. -/
def executeAddToBlocklistBatch (data : JobData) (ch : Chain) : ExecOutcome :=
  let call : ChainCall :=
    { method := "addToBlocklistBatch"
      args := [.strList data.addresses, .strList data.reasons]
      gasLimit := none }
  match ch.submit call with
  | .error e => (.error e, [call])
  | .ok tx =>
    match ch.wait tx.hash with
    | .error e => (.error e, [call])
    | .ok _ =>
      (.ok { txHash := tx.hash, count := some data.addresses.length, confirmed := some true }, [call])

/-- executeRemoveFromBlocklist: removeFromBlocklist(address), await
confirmation, echo the address. -/
def executeRemoveFromBlocklist (data : JobData) (ch : Chain) : ExecOutcome :=
  let call : ChainCall :=
    { method := "removeFromBlocklist", args := [.str data.address], gasLimit := none }
  match ch.submit call with
  | .error e => (.error e, [call])
  | .ok tx =>
    match ch.wait tx.hash with
    | .error e => (.error e, [call])
    | .ok _ => (.ok { txHash := tx.hash, address := some data.address, confirmed := some true }, [call])

/-- executeWithdrawFees: withdrawPlatformFees(), await confirmation. -/
def executeWithdrawFees (ch : Chain) : ExecOutcome :=
  let call : ChainCall := { method := "withdrawPlatformFees", args := [], gasLimit := none }
  match ch.submit call with
  | .error e => (.error e, [call])
  | .ok tx =>
    match ch.wait tx.hash with
    | .error e => (.error e, [call])
    | .ok _ => (.ok { txHash := tx.hash, confirmed := some true }, [call])

/-- executeArchiveRaffles: archiveRaffles(raffleIds), await confirmation,
echo the raffle-id count. -/
def executeArchiveRaffles (data : JobData) (ch : Chain) : ExecOutcome :=
  let call : ChainCall :=
    { method := "archiveRaffles", args := [.numList data.raffleIds], gasLimit := none }
  match ch.submit call with
  | .error e => (.error e, [call])
  | .ok tx =>
    match ch.wait tx.hash with
    | .error e => (.error e, [call])
    | .ok _ => (.ok { txHash := tx.hash, count := some data.raffleIds.length }, [call])

/-- executeTransaction: dispatch on the job-type discriminant over the
closed set of eleven job types; any other type throws the unknown-type
error without submitting a chain call.  (A JS switch over string literals
is a sequential comparison, embedded as an if-chain.) -/
def executeTransaction (type : String) (data : JobData) (ch : Chain) : ExecOutcome :=
  if type = "create-raffle" then executeCreateRaffle data ch
  else if type = "execute-raffle" then executeExecuteRaffle data ch
  else if type = "cancel-raffle" then executeCancelRaffle data ch
  else if type = "execute-refund" then executeRefundBatch data ch
  else if type = "pause-contract" then executePauseContract ch
  else if type = "unpause-contract" then executeUnpauseContract ch
  else if type = "add-to-blocklist" then executeAddToBlocklist data ch
  else if type = "add-to-blocklist-batch" then executeAddToBlocklistBatch data ch
  else if type = "remove-from-blocklist" then executeRemoveFromBlocklist data ch
  else if type = "withdraw-fees" then executeWithdrawFees ch
  else if type = "archive-raffles" then executeArchiveRaffles data ch
  else (.error ("Unknown transaction type: " ++ type), [])

/-- Backoff options of a Bull queue's default job options. -/
structure BackoffOpts where
  type : String
  delay : Nat
deriving Repr, DecidableEq

/-- The default job options a Bull queue is constructed with (the fields
the relayer sets). -/
structure JobOpts where
  attempts : Nat
  backoff : Option BackoffOpts
  timeout : Nat
deriving Repr, DecidableEq

/-- Default job options of the main queue relayer-tx-main: single attempt,
60s timeout, no backoff. -/
def txQueueOpts : JobOpts :=
  { attempts := 1, backoff := none, timeout := 60000 }

/-- Default job options of the retry queue relayer-tx-retry: 3 attempts,
exponential backoff with base delay 5000 ms, 60s timeout. -/
def txRetryQueueOpts : JobOpts :=
  { attempts := 3
    backoff := some { type := "exponential", delay := 5000 }
    timeout := 60000 }

/-- The wait before attempt n (0-indexed) of a retry-queue job: the
documented exponential backoff formula delay * 2 ^ attempt.  For n = 0
this coincides with the fixed 5000 ms delay moveToRetryQueue sets before
the first delivery; for n + 1 it is the backoff applied after the n-th
failure.  With base 5000 the waits are 5000, 10000, 20000. -/
def exponentialDelay (base n : Nat) : Nat := base * 2 ^ n

/-- Cumulative scheduled delay before attempt n (0-indexed): the sum of
the waits before attempts 0 .. n. -/
def cumulativeDelay (base : Nat) : Nat → Nat
  | 0 => exponentialDelay base 0
  | n + 1 => cumulativeDelay base n + exponentialDelay base (n + 1)

/-- A job's data as stored in the queue: the type discriminant together
with the payload fields (in the source both live flat in one JS object;
the embedding keeps the discriminant as a separate field of the same
record). -/
structure TransactionJobData where
  type : String
  fields : JobData
deriving Repr, DecidableEq

/-- The slice of a dequeued Bull job the processors read: id, stored data,
number of previously completed attempts, and the attempts option. -/
structure BullJob where
  id : Nat
  data : TransactionJobData
  attemptsMade : Nat
  optsAttempts : Option Nat
deriving Repr, DecidableEq

/-- A record added to the retry queue: the payload passed to
txRetryQueue.add together with the options object it is given. -/
structure RetryAdd where
  data : TransactionJobData
  delay : Nat
  jobId : String
deriving Repr, DecidableEq

/-- moveToRetryQueue: adds the failed job's full data to the retry queue
under id retry-<originalJobId> with a fixed 5000 ms initial delay (the
jobType and error arguments are only logged). -/
def moveToRetryQueue (_jobType : String) (jobData : TransactionJobData)
    (originalJobId : Nat) (_error : String) : RetryAdd :=
  { data := jobData, delay := 5000, jobId := "retry-" ++ toString originalJobId }

/-- The value processMainQueueJob resolves with. -/
structure MainReturn where
  success : Bool
  movedToRetry : Bool := false
  error : Option String := none
  result : Option TxResult := none
deriving Repr, DecidableEq

/-- processMainQueueJob: destructure the type out of the job data, run the
executor; on success resolve with success and the result, on failure move
the full job data to the retry queue and still resolve normally (never
reject).  The second component is the list of retry-queue adds performed. -/
def processMainQueueJob (job : BullJob) (ch : Chain) :
    Except String MainReturn × List RetryAdd :=
  match executeTransaction job.data.type job.data.fields ch with
  | (.ok result, _) =>
    (.ok { success := true, result := some result }, [])
  | (.error e, _) =>
    (.ok { success := false, movedToRetry := true, error := some e },
     [moveToRetryQueue job.data.type job.data job.id e])

/-- Terminal state Bull assigns a queue entry from its processor's
outcome: resolving marks it completed, rejecting marks it failed. -/
inductive EntryState where
  | completed
  | failed
deriving Repr, DecidableEq

/-- Maps a processor outcome to the entry state Bull records. -/
def bullEntryState {α : Type} : Except String α → EntryState
  | .ok _ => .completed
  | .error _ => .failed

/-- Log severity levels of the logger, ordered by a numeric rank. -/
inductive LogLevel where
  | info
  | warn
  | error
deriving Repr, DecidableEq

/-- Numeric severity rank: error is the highest. -/
def LogLevel.sev : LogLevel → Nat
  | .info => 0
  | .warn => 1
  | .error => 2

/-- One log entry: severity and message. -/
structure LogEntry where
  level : LogLevel
  message : String
deriving Repr, DecidableEq

/-- The value processRetryQueueJob resolves with on success. -/
structure RetryReturn where
  success : Bool
  wasRetry : Bool
  result : TxResult
deriving Repr, DecidableEq

/-- processRetryQueueJob: run the executor; on success resolve; on failure
log FAILED PERMANENTLY at error severity when this was the final attempt
(attemptsMade + 1 >= opts.attempts, defaulting to 3) and re-throw the
error so Bull's retry machinery advances the job.  The second component
collects the log entries the catch branch emits. -/
def processRetryQueueJob (job : BullJob) (ch : Chain) :
    Except String RetryReturn × List LogEntry :=
  match executeTransaction job.data.type job.data.fields ch with
  | (.ok result, _) =>
    (.ok { success := true, wasRetry := true, result := result }, [])
  | (.error e, _) =>
    let isFinalAttempt := job.attemptsMade + 1 ≥ job.optsAttempts.getD 3
    (.error e,
     if isFinalAttempt then
       [{ level := .error, message := "Retry queue job FAILED PERMANENTLY" }]
     else [])

/-- Status of a retry-queue entry after its processor rejected. -/
inductive RetryStatus where
  | delayed
  | failedPermanent
deriving Repr, DecidableEq

/-- Bull's attempt machinery after a rejected attempt: with attemptsMade
prior attempts, the (attemptsMade + 1)-th attempt just failed; the job is
redelivered (after backoff) while attempts remain, otherwise it is marked
failed for good. -/
def afterRetryFailure (attempts attemptsMade : Nat) : RetryStatus :=
  if attemptsMade + 1 < attempts then .delayed else .failedPermanent

/-- Only delayed entries are ever redelivered: a permanently failed entry
gets no further automatic attempt. -/
def retryEligible : RetryStatus → Bool
  | .delayed => true
  | .failedPermanent => false

/-- The last-failure record the monitor stores on a main-queue failed
event (timestamps as milliseconds). -/
structure LastFailure where
  jobId : String
  type : String
  error : String
  timestamp : Nat
deriving Repr, DecidableEq

/-- The monitor's process-local metrics storage. -/
structure QueueMetrics where
  completedJobs : Nat
  failedJobs : Nat
  stalledJobs : Nat
  lastFailure : Option LastFailure
deriving Repr, DecidableEq

/-- The metrics object at process start: all counters zero, no last
failure. -/
def initialMetrics : QueueMetrics :=
  { completedJobs := 0, failedJobs := 0, stalledJobs := 0, lastFailure := none }

/-- The queue lifecycle events the monitor attaches listeners to, with the
event arguments its handlers read. -/
inductive MonitorEvent where
  | mainCompleted
  | mainFailed (jobId type error : String) (timestamp : Nat)
  | mainStalled
  | mainError (error : String)
  | retryCompleted
  | retryFailed (attemptsMade : Nat) (optsAttempts : Option Nat) (error : String)
  | retryStalled
  | retryError (error : String)
deriving Repr, DecidableEq

/-- The metrics update performed by the monitor's event handlers: main
completed increments completedJobs; main failed increments failedJobs and
overwrites lastFailure; main stalled increments stalledJobs; every other
handler (both error handlers and all four retry-queue handlers) only logs
and leaves the metrics untouched. -/
def handleEvent (m : QueueMetrics) : MonitorEvent → QueueMetrics
  | .mainCompleted => { m with completedJobs := m.completedJobs + 1 }
  | .mainFailed jobId type error timestamp =>
    { m with
      failedJobs := m.failedJobs + 1
      lastFailure := some { jobId := jobId, type := type, error := error, timestamp := timestamp } }
  | .mainStalled => { m with stalledJobs := m.stalledJobs + 1 }
  | .mainError _ => m
  | .retryCompleted => m
  | .retryFailed _ _ _ => m
  | .retryStalled => m
  | .retryError _ => m

/-- resetMetrics: zero all three counters and delete the last-failure
record. -/
def resetMetrics (_m : QueueMetrics) : QueueMetrics :=
  { completedJobs := 0, failedJobs := 0, stalledJobs := 0, lastFailure := none }

/-- The per-queue job counts getQueueStatus reads from both queues. -/
structure QueueCounts where
  mainWaiting : Nat
  mainActive : Nat
  mainCompleted : Nat
  mainFailed : Nat
  mainDelayed : Nat
  retryWaiting : Nat
  retryActive : Nat
  retryCompleted : Nat
  retryFailed : Nat
  retryDelayed : Nat
deriving Repr, DecidableEq

/-- totalJobs = mainCompleted + mainFailed + retryCompleted + retryFailed. -/
def totalJobs (c : QueueCounts) : Nat :=
  c.mainCompleted + c.mainFailed + c.retryCompleted + c.retryFailed

/-- failureRate: ((mainFailed + retryFailed) / totalJobs) * 100 when
totalJobs > 0, else 0 (exact rational arithmetic in place of the JS
float). -/
def failureRate (c : QueueCounts) : ℚ :=
  if totalJobs c > 0 then
    (((c.mainFailed : ℚ) + (c.retryFailed : ℚ)) / (totalJobs c : ℚ)) * 100
  else 0

/-- backlogSize = mainWaiting + mainDelayed + retryWaiting + retryDelayed. -/
def backlogSize (c : QueueCounts) : Nat :=
  c.mainWaiting + c.mainDelayed + c.retryWaiting + c.retryDelayed

/-- The derived health classification. -/
inductive Health where
  | healthy
  | warning
  | critical
deriving Repr, DecidableEq

/-- The warning messages getQueueStatus pushes, abstracted as tagged
values carrying the interpolated quantity in place of the formatted
string. -/
inductive StatusWarning where
  | highFailureRate (rate : ℚ)
  | largeBacklog (backlog : Nat)
  | highStallCount (stalled : Nat)
  | workerStuck
deriving DecidableEq

/-- The health determination of getQueueStatus: health starts healthy;
failure rate > 10 sets warning; backlog > 100 sets warning; monitor
stalled count > 5 sets critical; mainActive = 0 with mainWaiting > 0 sets
critical; each firing condition also pushes its warning message.  The
sequential reassignments of the source are embedded as a chain of lets. -/
def getQueueStatusHealth (c : QueueCounts) (m : QueueMetrics) :
    Health × List StatusWarning :=
  let health : Health := .healthy
  let warnings : List StatusWarning := []
  let (health, warnings) :=
    if failureRate c > 10 then (Health.warning, warnings ++ [StatusWarning.highFailureRate (failureRate c)])
    else (health, warnings)
  let (health, warnings) :=
    if backlogSize c > 100 then (Health.warning, warnings ++ [StatusWarning.largeBacklog (backlogSize c)])
    else (health, warnings)
  let (health, warnings) :=
    if m.stalledJobs > 5 then (Health.critical, warnings ++ [StatusWarning.highStallCount m.stalledJobs])
    else (health, warnings)
  let (health, warnings) :=
    if c.mainActive = 0 ∧ c.mainWaiting > 0 then (Health.critical, warnings ++ [StatusWarning.workerStuck])
    else (health, warnings)
  (health, warnings)

/-- The concurrency registration startTransactionWorker performs: one
concurrent processing slot on the main queue and one on the retry queue
(txQueue.process(1, ...) and txRetryQueue.process(1, ...)). -/
structure WorkerConfig where
  mainConcurrency : Nat
  retryConcurrency : Nat
deriving Repr, DecidableEq

/-- startTransactionWorker registers concurrency 1 on each of the two
queues. -/
def startTransactionWorker : WorkerConfig :=
  { mainConcurrency := 1, retryConcurrency := 1 }

/-- Scheduler state of the queue pair: jobs waiting and jobs actively
being processed in each queue (jobs as identifiers). -/
structure QueuePairState where
  mainWaiting : List Nat
  mainActive : List Nat
  retryWaiting : List Nat
  retryActive : List Nat
deriving Repr, DecidableEq

/-- Interleaving semantics of the two registered Bull processors: each
queue independently starts its next waiting job whenever it has a free
slot (its active count is below its registered concurrency), and an
active job may finish.  There is no cross-queue mutual exclusion: the two
queues share no slot. -/
inductive QueuePairStep (cfg : WorkerConfig) : QueuePairState → QueuePairState → Prop
  | startMain (j : Nat) (rest : List Nat) (s : QueuePairState) :
      s.mainActive.length < cfg.mainConcurrency →
      s.mainWaiting = j :: rest →
      QueuePairStep cfg s
        { s with mainWaiting := rest, mainActive := j :: s.mainActive }
  | startRetry (j : Nat) (rest : List Nat) (s : QueuePairState) :
      s.retryActive.length < cfg.retryConcurrency →
      s.retryWaiting = j :: rest →
      QueuePairStep cfg s
        { s with retryWaiting := rest, retryActive := j :: s.retryActive }
  | finishMain (j : Nat) (rest : List Nat) (s : QueuePairState) :
      s.mainActive = j :: rest →
      QueuePairStep cfg s { s with mainActive := rest }
  | finishRetry (j : Nat) (rest : List Nat) (s : QueuePairState) :
      s.retryActive = j :: rest →
      QueuePairStep cfg s { s with retryActive := rest }

/-- Reachability under the worker's registered configuration. -/
def QueuePairReachable (s t : QueuePairState) : Prop :=
  Relation.ReflTransGen (QueuePairStep startTransactionWorker) s t

/-- Number of jobs being processed at once across both queues; every
active job performs a chain-mutating submission during its processing. -/
def inFlight (s : QueuePairState) : Nat :=
  s.mainActive.length + s.retryActive.length

/-- A concrete job payload used to evaluate the embedding on concrete
inputs. -/
def sampleJobData : JobData :=
  { templateId := 42
    referenceId := 1
    ticketPrice := "1.0"
    maxTickets := 100
    minTickets := 5
    durationSeconds := 86400
    raffleId := 7
    address := "0xabc"
    reason := "fraud"
    addresses := ["0xabc", "0xdef"]
    reasons := ["fraud", "fraud"]
    raffleIds := [3, 4, 5] }

/-- A chain client on which every round-trip fails. -/
def failingChain : Chain :=
  { estimateGas := fun _ _ => .error "rpc down"
    submit := fun _ => .error "rpc down"
    wait := fun _ => .error "rpc down" }

/-- A chain client on which every round-trip succeeds: estimates are 1000
and every submission yields the hash 0xhash. -/
def okChain : Chain :=
  { estimateGas := fun _ _ => .ok 1000
    submit := fun _ => .ok { hash := "0xhash" }
    wait := fun _ => .ok () }

/-- Queue counts that are all zero (a fresh deployment). -/
def zeroCounts : QueueCounts :=
  { mainWaiting := 0, mainActive := 0, mainCompleted := 0, mainFailed := 0, mainDelayed := 0
    retryWaiting := 0, retryActive := 0, retryCompleted := 0, retryFailed := 0, retryDelayed := 0 }

/-- Queue counts with a backlog of exactly 100 (60 + 20 waiting, 15 + 5
delayed across the two queues), one active main job, and 27 completed
with 3 failed. -/
def backlog100Counts : QueueCounts :=
  { mainWaiting := 60, mainActive := 1, mainCompleted := 20, mainFailed := 2, mainDelayed := 15
    retryWaiting := 20, retryActive := 0, retryCompleted := 7, retryFailed := 1, retryDelayed := 5 }

/-- The same counts with one more waiting main job: backlog 101. -/
def backlog101Counts : QueueCounts :=
  { mainWaiting := 61, mainActive := 1, mainCompleted := 20, mainFailed := 2, mainDelayed := 15
    retryWaiting := 20, retryActive := 0, retryCompleted := 7, retryFailed := 1, retryDelayed := 5 }

/-- C1.  Claim: at no point are two chain-mutating submissions in flight
from this process at once, even though the worker registers one concurrent
processing slot on each of the two queues.  The code contradicts this (and
its own header comment "Concurrency: 1, single job at a time"): the two
registered processors share no slot, so from a state with one job waiting
in each queue the scheduler reaches, in two start steps, a state in which
a main-queue job and a retry-queue job are active at once — two
chain-mutating submissions in flight. -/
theorem c1_two_submissions_in_flight_reachable :
    QueuePairReachable
      { mainWaiting := [1], mainActive := [], retryWaiting := [2], retryActive := [] }
      { mainWaiting := [], mainActive := [1], retryWaiting := [], retryActive := [2] } ∧
    inFlight { mainWaiting := [], mainActive := [1], retryWaiting := [], retryActive := [2] } = 2 := by
  constructor
  · exact Relation.ReflTransGen.head
      (QueuePairStep.startMain 1 []
        { mainWaiting := [1], mainActive := [], retryWaiting := [2], retryActive := [] }
        (by decide) rfl)
      (Relation.ReflTransGen.head
        (QueuePairStep.startRetry 2 []
          { mainWaiting := [], mainActive := [1], retryWaiting := [2], retryActive := [] }
          (by decide) rfl)
        Relation.ReflTransGen.refl)
  · rfl

/-- C2.  For every main-queue job whose executor call fails,
processMainQueueJob performs exactly one retry-queue add carrying the
identical job payload, with id retry-<originalJobId> and delay 5000 ms,
and resolves normally, so Bull marks the main-queue entry completed. -/
theorem c2_main_failure_hand_off (job : BullJob) (ch : Chain) (e : String)
    (hfail : (executeTransaction job.data.type job.data.fields ch).1 = Except.error e) :
    processMainQueueJob job ch =
      (Except.ok { success := false, movedToRetry := true, error := some e },
       [{ data := job.data, delay := 5000, jobId := "retry-" ++ toString job.id }]) ∧
    bullEntryState (processMainQueueJob job ch).1 = EntryState.completed := by
  rcases hr : executeTransaction job.data.type job.data.fields ch with ⟨res, calls⟩
  rw [hr] at hfail
  cases res with
  | error e2 =>
    cases hfail
    constructor
    · simp [processMainQueueJob, hr, moveToRetryQueue]
    · simp [processMainQueueJob, hr, bullEntryState]
  | ok r => exact absurd hfail (by simp)

/-- C2 witness: a concrete execute-refund job against a chain whose every
round-trip fails is handed off as the single retry-queue entry retry-9
with delay 5000 and the untouched payload, and the main-queue entry is
completed. -/
theorem c2_main_failure_hand_off_witness :
    processMainQueueJob
        { id := 9, data := { type := "execute-refund", fields := sampleJobData },
          attemptsMade := 0, optsAttempts := none } failingChain =
      (Except.ok { success := false, movedToRetry := true, error := some "rpc down" },
       [{ data := { type := "execute-refund", fields := sampleJobData },
          delay := 5000, jobId := "retry-" ++ toString (9 : Nat) }]) ∧
    bullEntryState
      (processMainQueueJob
        { id := 9, data := { type := "execute-refund", fields := sampleJobData },
          attemptsMade := 0, optsAttempts := none } failingChain).1 = EntryState.completed :=
  c2_main_failure_hand_off
    { id := 9, data := { type := "execute-refund", fields := sampleJobData },
      attemptsMade := 0, optsAttempts := none }
    failingChain "rpc down" (by rfl)

/-- C3.  The retry queue is configured with 3 attempts and exponential
backoff with base delay 5000 ms; the wait sequence is 5000, 10000, 20000
ms, is non-decreasing in the attempt index, and for any attempt-start
schedule respecting the per-attempt waits, attempt n cannot start before
the cumulative scheduled delay since enqueue has elapsed. -/
theorem c3_retry_backoff_schedule (t : Nat → Nat) (enqueueTime base n : Nat)
    (h0 : enqueueTime + exponentialDelay 5000 0 ≤ t 0)
    (hstep : ∀ k, t k + exponentialDelay 5000 (k + 1) ≤ t (k + 1)) :
    txRetryQueueOpts.attempts = 3 ∧
    txRetryQueueOpts.backoff = some { type := "exponential", delay := 5000 } ∧
    [exponentialDelay 5000 0, exponentialDelay 5000 1, exponentialDelay 5000 2] =
      [5000, 10000, 20000] ∧
    exponentialDelay base n ≤ exponentialDelay base (n + 1) ∧
    enqueueTime + cumulativeDelay 5000 n ≤ t n := by
  refine ⟨rfl, rfl, by decide, ?_, ?_⟩
  · exact Nat.mul_le_mul_left base (Nat.pow_le_pow_right (by norm_num) (Nat.le_succ n))
  · induction n with
    | zero => exact h0
    | succ k ih =>
      have h1 : enqueueTime + cumulativeDelay 5000 k + exponentialDelay 5000 (k + 1) ≤
          t k + exponentialDelay 5000 (k + 1) := Nat.add_le_add_right ih _
      calc enqueueTime + cumulativeDelay 5000 (k + 1)
          = enqueueTime + cumulativeDelay 5000 k + exponentialDelay 5000 (k + 1) := by
            simp [cumulativeDelay, Nat.add_assoc]
        _ ≤ t k + exponentialDelay 5000 (k + 1) := h1
        _ ≤ t (k + 1) := hstep k

/-- C3 witness: the schedule that starts each attempt exactly at its
cumulative scheduled delay satisfies the per-attempt wait constraints, and
at attempt 2 (the third and final attempt) the bound is met. -/
theorem c3_retry_backoff_schedule_witness :
    txRetryQueueOpts.attempts = 3 ∧
    txRetryQueueOpts.backoff = some { type := "exponential", delay := 5000 } ∧
    [exponentialDelay 5000 0, exponentialDelay 5000 1, exponentialDelay 5000 2] =
      [5000, 10000, 20000] ∧
    exponentialDelay 5000 2 ≤ exponentialDelay 5000 3 ∧
    0 + cumulativeDelay 5000 2 ≤ cumulativeDelay 5000 2 :=
  c3_retry_backoff_schedule (fun k => cumulativeDelay 5000 k) 0 5000 2
    (by simp [cumulativeDelay])
    (fun k => by simp [cumulativeDelay])

/-- C4 counterexample.  The claim requires the health snapshot's
lastFailure record to reflect the exhausted retry job, but the monitor's
retry-queue failed handler only logs: after the monitor processes the
final-attempt failure of a retry job (attemptsMade 2 of 3) from a fresh
process, lastFailure is still none. -/
theorem c4_lastFailure_unchanged_counterexample :
    (handleEvent initialMetrics (MonitorEvent.retryFailed 2 (some 3) "rpc down")).lastFailure =
      none := rfl

/-- C4 (amended).  For every retry-queue job whose executor call fails,
processRetryQueueJob re-raises the error so Bull's attempt machinery
advances; on the final attempt the exhaustion is logged at error severity,
the highest level; with the configured 3 attempts a third failure makes
the entry permanently failed and ineligible for any further automatic
attempt; but the monitor's retry-failed handler leaves the metrics'
lastFailure record unchanged (it is set only by main-queue failures). -/
theorem c4_retry_exhaustion (job : BullJob) (ch : Chain) (e : String)
    (m : QueueMetrics) (am : Nat) (oa : Option Nat) (err : String) (l : LogLevel)
    (hfail : (executeTransaction job.data.type job.data.fields ch).1 = Except.error e)
    (hfinal : job.attemptsMade + 1 ≥ job.optsAttempts.getD 3) :
    (processRetryQueueJob job ch).1 = Except.error e ∧
    ({ level := LogLevel.error, message := "Retry queue job FAILED PERMANENTLY" } : LogEntry) ∈
      (processRetryQueueJob job ch).2 ∧
    LogLevel.sev l ≤ LogLevel.sev LogLevel.error ∧
    afterRetryFailure txRetryQueueOpts.attempts 2 = RetryStatus.failedPermanent ∧
    retryEligible RetryStatus.failedPermanent = false ∧
    (handleEvent m (MonitorEvent.retryFailed am oa err)).lastFailure = m.lastFailure := by
  rcases hr : executeTransaction job.data.type job.data.fields ch with ⟨res, calls⟩
  rw [hr] at hfail
  cases res with
  | error e2 =>
    cases hfail
    refine ⟨?_, ?_, ?_, rfl, rfl, ?_⟩
    · simp [processRetryQueueJob, hr]
    · simp [processRetryQueueJob, hr, hfinal]
    · cases l <;> simp [LogLevel.sev]
    · cases m; simp [handleEvent]
  | ok r => exact absurd hfail (by simp)

/-- C4 witness: a concrete execute-refund retry job on its third attempt
against an always-failing chain re-raises, logs the permanent failure at
error severity, the retry entry becomes permanently failed and ineligible,
and the monitor event leaves lastFailure at none. -/
theorem c4_retry_exhaustion_witness :
    (processRetryQueueJob
        { id := 9, data := { type := "execute-refund", fields := sampleJobData },
          attemptsMade := 2, optsAttempts := some 3 } failingChain).1 =
      Except.error "rpc down" ∧
    ({ level := LogLevel.error, message := "Retry queue job FAILED PERMANENTLY" } : LogEntry) ∈
      (processRetryQueueJob
        { id := 9, data := { type := "execute-refund", fields := sampleJobData },
          attemptsMade := 2, optsAttempts := some 3 } failingChain).2 ∧
    LogLevel.sev LogLevel.warn ≤ LogLevel.sev LogLevel.error ∧
    afterRetryFailure txRetryQueueOpts.attempts 2 = RetryStatus.failedPermanent ∧
    retryEligible RetryStatus.failedPermanent = false ∧
    (handleEvent initialMetrics (MonitorEvent.retryFailed 2 (some 3) "rpc down")).lastFailure =
      initialMetrics.lastFailure :=
  c4_retry_exhaustion
    { id := 9, data := { type := "execute-refund", fields := sampleJobData },
      attemptsMade := 2, optsAttempts := some 3 }
    failingChain "rpc down" initialMetrics 2 (some 3) "rpc down" LogLevel.warn
    (by rfl) (by decide)

/-- C8.  executeTransaction dispatches each of the eleven known job-type
discriminants to its executor, and any other type value yields the
unknown-transaction-type error with no chain call submitted. -/
theorem c8_unknown_type_rejected (type : String) (data : JobData) (ch : Chain)
    (h : type ∉ (["create-raffle", "execute-raffle", "cancel-raffle", "execute-refund",
                  "pause-contract", "unpause-contract", "add-to-blocklist",
                  "add-to-blocklist-batch", "remove-from-blocklist", "withdraw-fees",
                  "archive-raffles"] : List String)) :
    executeTransaction "create-raffle" data ch = executeCreateRaffle data ch ∧
    executeTransaction "execute-raffle" data ch = executeExecuteRaffle data ch ∧
    executeTransaction "cancel-raffle" data ch = executeCancelRaffle data ch ∧
    executeTransaction "execute-refund" data ch = executeRefundBatch data ch ∧
    executeTransaction "pause-contract" data ch = executePauseContract ch ∧
    executeTransaction "unpause-contract" data ch = executeUnpauseContract ch ∧
    executeTransaction "add-to-blocklist" data ch = executeAddToBlocklist data ch ∧
    executeTransaction "add-to-blocklist-batch" data ch = executeAddToBlocklistBatch data ch ∧
    executeTransaction "remove-from-blocklist" data ch = executeRemoveFromBlocklist data ch ∧
    executeTransaction "withdraw-fees" data ch = executeWithdrawFees ch ∧
    executeTransaction "archive-raffles" data ch = executeArchiveRaffles data ch ∧
    executeTransaction type data ch =
      (Except.error ("Unknown transaction type: " ++ type), []) := by
  simp only [List.mem_cons, List.not_mem_nil, or_false, not_or] at h
  obtain ⟨h1, h2, h3, h4, h5, h6, h7, h8, h9, h10, h11⟩ := h
  refine ⟨rfl, rfl, rfl, rfl, rfl, rfl, rfl, rfl, rfl, rfl, rfl, ?_⟩
  simp [executeTransaction, h1, h2, h3, h4, h5, h6, h7, h8, h9, h10, h11]

/-- C8 witness: the unrecognized type some-future-type is rejected with
the unknown-transaction-type error and no chain call. -/
theorem c8_unknown_type_rejected_witness :
    executeTransaction "create-raffle" sampleJobData okChain =
      executeCreateRaffle sampleJobData okChain ∧
    executeTransaction "execute-raffle" sampleJobData okChain =
      executeExecuteRaffle sampleJobData okChain ∧
    executeTransaction "cancel-raffle" sampleJobData okChain =
      executeCancelRaffle sampleJobData okChain ∧
    executeTransaction "execute-refund" sampleJobData okChain =
      executeRefundBatch sampleJobData okChain ∧
    executeTransaction "pause-contract" sampleJobData okChain =
      executePauseContract okChain ∧
    executeTransaction "unpause-contract" sampleJobData okChain =
      executeUnpauseContract okChain ∧
    executeTransaction "add-to-blocklist" sampleJobData okChain =
      executeAddToBlocklist sampleJobData okChain ∧
    executeTransaction "add-to-blocklist-batch" sampleJobData okChain =
      executeAddToBlocklistBatch sampleJobData okChain ∧
    executeTransaction "remove-from-blocklist" sampleJobData okChain =
      executeRemoveFromBlocklist sampleJobData okChain ∧
    executeTransaction "withdraw-fees" sampleJobData okChain =
      executeWithdrawFees okChain ∧
    executeTransaction "archive-raffles" sampleJobData okChain =
      executeArchiveRaffles sampleJobData okChain ∧
    executeTransaction "some-future-type" sampleJobData okChain =
      (Except.error ("Unknown transaction type: " ++ "some-future-type"), []) :=
  c8_unknown_type_rejected "some-future-type" sampleJobData okChain (by decide)

/-- C9.  Under every queue lifecycle event the monitor handles, each of
the three process-local counters is non-decreasing, and resetMetrics sets
all three to zero and clears lastFailure. -/
theorem c9_metrics_monotone (m : QueueMetrics) (e : MonitorEvent) :
    m.completedJobs ≤ (handleEvent m e).completedJobs ∧
    m.failedJobs ≤ (handleEvent m e).failedJobs ∧
    m.stalledJobs ≤ (handleEvent m e).stalledJobs ∧
    resetMetrics m =
      { completedJobs := 0, failedJobs := 0, stalledJobs := 0, lastFailure := none } := by
  refine ⟨?_, ?_, ?_, rfl⟩ <;> cases e <;> simp [handleEvent]

/-- C9 witness: the monotonicity and reset facts at a concrete metrics
state and event. -/
theorem c9_metrics_monotone_witness :
    ({ completedJobs := 3, failedJobs := 1, stalledJobs := 0,
       lastFailure := none } : QueueMetrics).completedJobs ≤
      (handleEvent { completedJobs := 3, failedJobs := 1, stalledJobs := 0, lastFailure := none }
        MonitorEvent.mainCompleted).completedJobs ∧
    ({ completedJobs := 3, failedJobs := 1, stalledJobs := 0,
       lastFailure := none } : QueueMetrics).failedJobs ≤
      (handleEvent { completedJobs := 3, failedJobs := 1, stalledJobs := 0, lastFailure := none }
        MonitorEvent.mainCompleted).failedJobs ∧
    ({ completedJobs := 3, failedJobs := 1, stalledJobs := 0,
       lastFailure := none } : QueueMetrics).stalledJobs ≤
      (handleEvent { completedJobs := 3, failedJobs := 1, stalledJobs := 0, lastFailure := none }
        MonitorEvent.mainCompleted).stalledJobs ∧
    resetMetrics { completedJobs := 3, failedJobs := 1, stalledJobs := 0, lastFailure := none } =
      { completedJobs := 0, failedJobs := 0, stalledJobs := 0, lastFailure := none } :=
  c9_metrics_monotone
    { completedJobs := 3, failedJobs := 1, stalledJobs := 0, lastFailure := none }
    MonitorEvent.mainCompleted

/-- C10.  The failure-rate computation is total: when completed plus
failed across both queues is zero the rate is defined to be 0 (the guard
avoids the division), and the high-failure-rate warning does not fire. -/
theorem c10_failure_rate_total (c : QueueCounts) (m : QueueMetrics)
    (h : totalJobs c = 0) :
    failureRate c = 0 ∧
    StatusWarning.highFailureRate (failureRate c) ∉ (getQueueStatusHealth c m).2 := by
  have hrate : failureRate c = 0 := by simp [failureRate, h]
  have h10 : ¬ failureRate c > 10 := by rw [hrate]; norm_num
  refine ⟨hrate, ?_⟩
  simp only [getQueueStatusHealth]
  split_ifs <;> simp_all

/-- C10 witness: on a fresh deployment with all counts zero the rate is 0
and no high-failure-rate warning is emitted. -/
theorem c10_failure_rate_total_witness :
    failureRate zeroCounts = 0 ∧
    StatusWarning.highFailureRate (failureRate zeroCounts) ∉
      (getQueueStatusHealth zeroCounts initialMetrics).2 :=
  c10_failure_rate_total zeroCounts initialMetrics (by rfl)

/-- C5.  The health classification of the queue-status snapshot: critical
exactly when the stalled count exceeds 5 or the main queue has waiting
jobs but none active; otherwise warning exactly when the failure rate
strictly exceeds 10 percent or the backlog strictly exceeds 100;
otherwise healthy.  The high-failure-rate warning message is emitted
exactly when the rate strictly exceeds 10 (a rate of exactly 10 does not
fire it) and the large-backlog warning exactly when the backlog strictly
exceeds 100 (exactly 100 does not fire it, 101 does). -/
theorem c5_health_classification (c : QueueCounts) (m : QueueMetrics) :
    ((getQueueStatusHealth c m).1 = Health.critical ↔
      (m.stalledJobs > 5 ∨ (c.mainActive = 0 ∧ c.mainWaiting > 0))) ∧
    ((getQueueStatusHealth c m).1 = Health.warning ↔
      (¬(m.stalledJobs > 5 ∨ (c.mainActive = 0 ∧ c.mainWaiting > 0)) ∧
        (failureRate c > 10 ∨ backlogSize c > 100))) ∧
    ((getQueueStatusHealth c m).1 = Health.healthy ↔
      (¬(m.stalledJobs > 5 ∨ (c.mainActive = 0 ∧ c.mainWaiting > 0)) ∧
        ¬(failureRate c > 10 ∨ backlogSize c > 100))) ∧
    (StatusWarning.highFailureRate (failureRate c) ∈ (getQueueStatusHealth c m).2 ↔
      failureRate c > 10) ∧
    (StatusWarning.largeBacklog (backlogSize c) ∈ (getQueueStatusHealth c m).2 ↔
      backlogSize c > 100) := by
  simp only [getQueueStatusHealth]
  split_ifs with h1 h2 h3 h4 <;> simp_all

/-- C5 witness: at a backlog of exactly 100 with failure rate exactly 10
percent (3 failed of 30 observed) no warning fires and the status is
healthy; the same counts with backlog 101 give a large-backlog warning
and warning status. -/
theorem c5_health_classification_witness :
    (getQueueStatusHealth backlog100Counts initialMetrics).1 = Health.healthy ∧
    StatusWarning.largeBacklog (backlogSize backlog100Counts) ∉
      (getQueueStatusHealth backlog100Counts initialMetrics).2 ∧
    StatusWarning.highFailureRate (failureRate backlog100Counts) ∉
      (getQueueStatusHealth backlog100Counts initialMetrics).2 ∧
    (getQueueStatusHealth backlog101Counts initialMetrics).1 = Health.warning ∧
    StatusWarning.largeBacklog (backlogSize backlog101Counts) ∈
      (getQueueStatusHealth backlog101Counts initialMetrics).2 := by
  have h100 := c5_health_classification backlog100Counts initialMetrics
  have h101 := c5_health_classification backlog101Counts initialMetrics
  have hr : failureRate backlog100Counts = 10 := by
    norm_num [failureRate, totalJobs, backlog100Counts]
  have hnr : ¬ failureRate backlog100Counts > 10 := by rw [hr]; norm_num
  have hb100 : ¬ backlogSize backlog100Counts > 100 := by decide
  have hb101 : backlogSize backlog101Counts > 100 := by decide
  have hcrit100 : ¬(initialMetrics.stalledJobs > 5 ∨
      (backlog100Counts.mainActive = 0 ∧ backlog100Counts.mainWaiting > 0)) := by decide
  have hcrit101 : ¬(initialMetrics.stalledJobs > 5 ∨
      (backlog101Counts.mainActive = 0 ∧ backlog101Counts.mainWaiting > 0)) := by decide
  refine ⟨?_, ?_, ?_, ?_, ?_⟩
  · exact h100.2.2.1.mpr ⟨hcrit100, not_or.mpr ⟨hnr, hb100⟩⟩
  · intro hmem
    exact hb100 (h100.2.2.2.2.mp hmem)
  · intro hmem
    exact hnr (h100.2.2.2.1.mp hmem)
  · exact h101.2.1.mpr ⟨hcrit101, Or.inr hb101⟩
  · exact h101.2.2.2.2.mpr hb101

/-- Helper: with a successful gas estimate, executeExecuteRaffle submits
exactly one call, with the +20 percent gas limit. -/
theorem executeExecuteRaffle_calls (data : JobData) (ch : Chain) (est : Nat)
    (h : ch.estimateGas "executeRaffle" [JSVal.num data.raffleId] = Except.ok est) :
    (executeExecuteRaffle data ch).2 =
      [{ method := "executeRaffle", args := [JSVal.num data.raffleId],
         gasLimit := some (est * 120 / 100) }] := by
  unfold executeExecuteRaffle
  simp only [h]
  split
  · rfl
  · split <;> rfl

/-- Helper: with a successful gas estimate, executeCancelRaffle submits
exactly one call, with the +20 percent gas limit. -/
theorem executeCancelRaffle_calls (data : JobData) (ch : Chain) (est : Nat)
    (h : ch.estimateGas "cancelRaffle" [JSVal.num data.raffleId] = Except.ok est) :
    (executeCancelRaffle data ch).2 =
      [{ method := "cancelRaffle", args := [JSVal.num data.raffleId],
         gasLimit := some (est * 120 / 100) }] := by
  unfold executeCancelRaffle
  simp only [h]
  split
  · rfl
  · split <;> rfl

/-- Helper: with a successful gas estimate, executeRefundBatch submits
exactly one call, with the +20 percent gas limit. -/
theorem executeRefundBatch_calls (data : JobData) (ch : Chain) (est : Nat)
    (h : ch.estimateGas "executeRefundBatch" [JSVal.num data.raffleId] = Except.ok est) :
    (executeRefundBatch data ch).2 =
      [{ method := "executeRefundBatch", args := [JSVal.num data.raffleId],
         gasLimit := some (est * 120 / 100) }] := by
  unfold executeRefundBatch
  simp only [h]
  split
  · rfl
  · split <;> rfl

/-- Helper: with a successfully parsed ticket price, executeCreateRaffle
submits exactly one call, with no explicit gas limit. -/
theorem executeCreateRaffle_calls (data : JobData) (ch : Chain) (price : Nat)
    (h : parseUnits18 data.ticketPrice = Except.ok price) :
    (executeCreateRaffle data ch).2 =
      [{ method := "createRaffle"
         args := [JSVal.num data.templateId, JSVal.num data.referenceId, JSVal.num price,
                  JSVal.num data.maxTickets, JSVal.num data.minTickets,
                  JSVal.num data.durationSeconds]
         gasLimit := none }] := by
  unfold executeCreateRaffle
  simp only [h]
  split
  · rfl
  · split <;> rfl

/-- Helper: executePauseContract always submits exactly the pause call,
with no explicit gas limit. -/
theorem executePauseContract_calls (ch : Chain) :
    (executePauseContract ch).2 = [{ method := "pause", args := [], gasLimit := none }] := by
  unfold executePauseContract
  dsimp only
  split
  · rfl
  · split <;> rfl

/-- Helper: executeUnpauseContract always submits exactly the unpause
call, with no explicit gas limit. -/
theorem executeUnpauseContract_calls (ch : Chain) :
    (executeUnpauseContract ch).2 = [{ method := "unpause", args := [], gasLimit := none }] := by
  unfold executeUnpauseContract
  dsimp only
  split
  · rfl
  · split <;> rfl

/-- Helper: executeAddToBlocklist always submits exactly one call, with no
explicit gas limit. -/
theorem executeAddToBlocklist_calls (data : JobData) (ch : Chain) :
    (executeAddToBlocklist data ch).2 =
      [{ method := "addToBlocklist", args := [JSVal.str data.address, JSVal.str data.reason],
         gasLimit := none }] := by
  unfold executeAddToBlocklist
  dsimp only
  split
  · rfl
  · split <;> rfl

/-- Helper: executeAddToBlocklistBatch always submits exactly one call,
with no explicit gas limit. -/
theorem executeAddToBlocklistBatch_calls (data : JobData) (ch : Chain) :
    (executeAddToBlocklistBatch data ch).2 =
      [{ method := "addToBlocklistBatch"
         args := [JSVal.strList data.addresses, JSVal.strList data.reasons]
         gasLimit := none }] := by
  unfold executeAddToBlocklistBatch
  dsimp only
  split
  · rfl
  · split <;> rfl

/-- Helper: executeRemoveFromBlocklist always submits exactly one call,
with no explicit gas limit. -/
theorem executeRemoveFromBlocklist_calls (data : JobData) (ch : Chain) :
    (executeRemoveFromBlocklist data ch).2 =
      [{ method := "removeFromBlocklist", args := [JSVal.str data.address],
         gasLimit := none }] := by
  unfold executeRemoveFromBlocklist
  dsimp only
  split
  · rfl
  · split <;> rfl

/-- Helper: executeWithdrawFees always submits exactly the
withdrawPlatformFees call, with no explicit gas limit. -/
theorem executeWithdrawFees_calls (ch : Chain) :
    (executeWithdrawFees ch).2 =
      [{ method := "withdrawPlatformFees", args := [], gasLimit := none }] := by
  unfold executeWithdrawFees
  dsimp only
  split
  · rfl
  · split <;> rfl

/-- Helper: executeArchiveRaffles always submits exactly one call, with no
explicit gas limit. -/
theorem executeArchiveRaffles_calls (data : JobData) (ch : Chain) :
    (executeArchiveRaffles data ch).2 =
      [{ method := "archiveRaffles", args := [JSVal.numList data.raffleIds],
         gasLimit := none }] := by
  unfold executeArchiveRaffles
  dsimp only
  split
  · rfl
  · split <;> rfl

/-- C6.  The three variable-gas job types estimate gas first and submit
with a gas limit of exactly estimate * 120 / 100 in integer arithmetic;
every other job type submits its single call without an explicit gas
limit. -/
theorem c6_gas_limits (data : JobData) (ch : Chain) (est1 est2 est3 price : Nat)
    (h1 : ch.estimateGas "executeRaffle" [JSVal.num data.raffleId] = Except.ok est1)
    (h2 : ch.estimateGas "cancelRaffle" [JSVal.num data.raffleId] = Except.ok est2)
    (h3 : ch.estimateGas "executeRefundBatch" [JSVal.num data.raffleId] = Except.ok est3)
    (hp : parseUnits18 data.ticketPrice = Except.ok price) :
    (executeExecuteRaffle data ch).2 =
      [{ method := "executeRaffle", args := [JSVal.num data.raffleId],
         gasLimit := some (est1 * 120 / 100) }] ∧
    (executeCancelRaffle data ch).2 =
      [{ method := "cancelRaffle", args := [JSVal.num data.raffleId],
         gasLimit := some (est2 * 120 / 100) }] ∧
    (executeRefundBatch data ch).2 =
      [{ method := "executeRefundBatch", args := [JSVal.num data.raffleId],
         gasLimit := some (est3 * 120 / 100) }] ∧
    (executeCreateRaffle data ch).2 =
      [{ method := "createRaffle"
         args := [JSVal.num data.templateId, JSVal.num data.referenceId, JSVal.num price,
                  JSVal.num data.maxTickets, JSVal.num data.minTickets,
                  JSVal.num data.durationSeconds]
         gasLimit := none }] ∧
    (executePauseContract ch).2 = [{ method := "pause", args := [], gasLimit := none }] ∧
    (executeUnpauseContract ch).2 = [{ method := "unpause", args := [], gasLimit := none }] ∧
    (executeAddToBlocklist data ch).2 =
      [{ method := "addToBlocklist", args := [JSVal.str data.address, JSVal.str data.reason],
         gasLimit := none }] ∧
    (executeAddToBlocklistBatch data ch).2 =
      [{ method := "addToBlocklistBatch"
         args := [JSVal.strList data.addresses, JSVal.strList data.reasons]
         gasLimit := none }] ∧
    (executeRemoveFromBlocklist data ch).2 =
      [{ method := "removeFromBlocklist", args := [JSVal.str data.address],
         gasLimit := none }] ∧
    (executeWithdrawFees ch).2 =
      [{ method := "withdrawPlatformFees", args := [], gasLimit := none }] ∧
    (executeArchiveRaffles data ch).2 =
      [{ method := "archiveRaffles", args := [JSVal.numList data.raffleIds],
         gasLimit := none }] :=
  ⟨executeExecuteRaffle_calls data ch est1 h1,
   executeCancelRaffle_calls data ch est2 h2,
   executeRefundBatch_calls data ch est3 h3,
   executeCreateRaffle_calls data ch price hp,
   executePauseContract_calls ch,
   executeUnpauseContract_calls ch,
   executeAddToBlocklist_calls data ch,
   executeAddToBlocklistBatch_calls data ch,
   executeRemoveFromBlocklist_calls data ch,
   executeWithdrawFees_calls ch,
   executeArchiveRaffles_calls data ch⟩

/-- C6 witness: against a chain whose estimates are 1000, the three
variable-gas executors submit with gas limit 1000 * 120 / 100 = 1200 and
the other eight submit without an explicit gas limit. -/
theorem c6_gas_limits_witness :
    (executeExecuteRaffle sampleJobData okChain).2 =
      [{ method := "executeRaffle", args := [JSVal.num sampleJobData.raffleId],
         gasLimit := some (1000 * 120 / 100) }] ∧
    (executeCancelRaffle sampleJobData okChain).2 =
      [{ method := "cancelRaffle", args := [JSVal.num sampleJobData.raffleId],
         gasLimit := some (1000 * 120 / 100) }] ∧
    (executeRefundBatch sampleJobData okChain).2 =
      [{ method := "executeRefundBatch", args := [JSVal.num sampleJobData.raffleId],
         gasLimit := some (1000 * 120 / 100) }] ∧
    (executeCreateRaffle sampleJobData okChain).2 =
      [{ method := "createRaffle"
         args := [JSVal.num sampleJobData.templateId, JSVal.num sampleJobData.referenceId,
                  JSVal.num (10 ^ 18), JSVal.num sampleJobData.maxTickets,
                  JSVal.num sampleJobData.minTickets, JSVal.num sampleJobData.durationSeconds]
         gasLimit := none }] ∧
    (executePauseContract okChain).2 = [{ method := "pause", args := [], gasLimit := none }] ∧
    (executeUnpauseContract okChain).2 = [{ method := "unpause", args := [], gasLimit := none }] ∧
    (executeAddToBlocklist sampleJobData okChain).2 =
      [{ method := "addToBlocklist"
         args := [JSVal.str sampleJobData.address, JSVal.str sampleJobData.reason]
         gasLimit := none }] ∧
    (executeAddToBlocklistBatch sampleJobData okChain).2 =
      [{ method := "addToBlocklistBatch"
         args := [JSVal.strList sampleJobData.addresses, JSVal.strList sampleJobData.reasons]
         gasLimit := none }] ∧
    (executeRemoveFromBlocklist sampleJobData okChain).2 =
      [{ method := "removeFromBlocklist", args := [JSVal.str sampleJobData.address],
         gasLimit := none }] ∧
    (executeWithdrawFees okChain).2 =
      [{ method := "withdrawPlatformFees", args := [], gasLimit := none }] ∧
    (executeArchiveRaffles sampleJobData okChain).2 =
      [{ method := "archiveRaffles", args := [JSVal.numList sampleJobData.raffleIds],
         gasLimit := none }] :=
  c6_gas_limits sampleJobData okChain 1000 1000 1000 (10 ^ 18) rfl rfl rfl (by rfl)

/-- Helper: a successful executeCreateRaffle run submitted exactly one
call whose submission produced the echoed transaction hash, and echoes
the reference id. -/
theorem executeCreateRaffle_success (data : JobData) (ch : Chain) (r : TxResult)
    (h : (executeCreateRaffle data ch).1 = Except.ok r) :
    (executeCreateRaffle data ch).2.map ch.submit = [Except.ok { hash := r.txHash }] ∧
    r.referenceId = some (toString data.referenceId) := by
  unfold executeCreateRaffle at h ⊢
  rcases hp : parseUnits18 data.ticketPrice with e | price
  · rw [hp] at h; simp at h
  · rw [hp] at h
    dsimp only at h ⊢
    rcases hs : ch.submit { method := "createRaffle", args := [JSVal.num data.templateId, JSVal.num data.referenceId, JSVal.num price, JSVal.num data.maxTickets, JSVal.num data.minTickets, JSVal.num data.durationSeconds], gasLimit := none } with e | tx
    · rw [hs] at h; simp at h
    · rw [hs] at h
      dsimp only at h ⊢
      rcases hw : ch.wait tx.hash with e | u
      · rw [hw] at h; simp at h
      · rw [hw] at h
        dsimp only at h ⊢
        simp only [Except.ok.injEq] at h
        subst h
        simp [hs]

/-- Helper: a successful executeExecuteRaffle run submitted exactly one
call whose submission produced the echoed transaction hash, and echoes
the raffle id. -/
theorem executeExecuteRaffle_success (data : JobData) (ch : Chain) (r : TxResult)
    (h : (executeExecuteRaffle data ch).1 = Except.ok r) :
    (executeExecuteRaffle data ch).2.map ch.submit = [Except.ok { hash := r.txHash }] ∧
    r.raffleId = some (toString data.raffleId) := by
  unfold executeExecuteRaffle at h ⊢
  rcases he : ch.estimateGas "executeRaffle" [JSVal.num data.raffleId] with e | est
  · rw [he] at h; simp at h
  · rw [he] at h
    dsimp only at h ⊢
    rcases hs : ch.submit { method := "executeRaffle", args := [JSVal.num data.raffleId], gasLimit := some (est * 120 / 100) } with e | tx
    · rw [hs] at h; simp at h
    · rw [hs] at h
      dsimp only at h ⊢
      rcases hw : ch.wait tx.hash with e | u
      · rw [hw] at h; simp at h
      · rw [hw] at h
        dsimp only at h ⊢
        simp only [Except.ok.injEq] at h
        subst h
        simp [hs]

/-- Helper: a successful executeCancelRaffle run submitted exactly one
call whose submission produced the echoed transaction hash, and echoes
the raffle id. -/
theorem executeCancelRaffle_success (data : JobData) (ch : Chain) (r : TxResult)
    (h : (executeCancelRaffle data ch).1 = Except.ok r) :
    (executeCancelRaffle data ch).2.map ch.submit = [Except.ok { hash := r.txHash }] ∧
    r.raffleId = some (toString data.raffleId) := by
  unfold executeCancelRaffle at h ⊢
  rcases he : ch.estimateGas "cancelRaffle" [JSVal.num data.raffleId] with e | est
  · rw [he] at h; simp at h
  · rw [he] at h
    dsimp only at h ⊢
    rcases hs : ch.submit { method := "cancelRaffle", args := [JSVal.num data.raffleId], gasLimit := some (est * 120 / 100) } with e | tx
    · rw [hs] at h; simp at h
    · rw [hs] at h
      dsimp only at h ⊢
      rcases hw : ch.wait tx.hash with e | u
      · rw [hw] at h; simp at h
      · rw [hw] at h
        dsimp only at h ⊢
        simp only [Except.ok.injEq] at h
        subst h
        simp [hs]

/-- Helper: a successful executeRefundBatch run submitted exactly one
call whose submission produced the echoed transaction hash, and echoes
the raffle id. -/
theorem executeRefundBatch_success (data : JobData) (ch : Chain) (r : TxResult)
    (h : (executeRefundBatch data ch).1 = Except.ok r) :
    (executeRefundBatch data ch).2.map ch.submit = [Except.ok { hash := r.txHash }] ∧
    r.raffleId = some (toString data.raffleId) := by
  unfold executeRefundBatch at h ⊢
  rcases he : ch.estimateGas "executeRefundBatch" [JSVal.num data.raffleId] with e | est
  · rw [he] at h; simp at h
  · rw [he] at h
    dsimp only at h ⊢
    rcases hs : ch.submit { method := "executeRefundBatch", args := [JSVal.num data.raffleId], gasLimit := some (est * 120 / 100) } with e | tx
    · rw [hs] at h; simp at h
    · rw [hs] at h
      dsimp only at h ⊢
      rcases hw : ch.wait tx.hash with e | u
      · rw [hw] at h; simp at h
      · rw [hw] at h
        dsimp only at h ⊢
        simp only [Except.ok.injEq] at h
        subst h
        simp [hs]

/-- Helper: a successful executePauseContract run submitted exactly one
call whose submission produced the echoed transaction hash. -/
theorem executePauseContract_success (ch : Chain) (r : TxResult)
    (h : (executePauseContract ch).1 = Except.ok r) :
    (executePauseContract ch).2.map ch.submit = [Except.ok { hash := r.txHash }] := by
  unfold executePauseContract at h ⊢
  dsimp only at h ⊢
  rcases hs : ch.submit { method := "pause", args := [], gasLimit := none } with e | tx
  · rw [hs] at h; simp at h
  · rw [hs] at h
    dsimp only at h ⊢
    rcases hw : ch.wait tx.hash with e | u
    · rw [hw] at h; simp at h
    · rw [hw] at h
      dsimp only at h ⊢
      simp only [Except.ok.injEq] at h
      subst h
      simp [hs]

/-- Helper: a successful executeUnpauseContract run submitted exactly one
call whose submission produced the echoed transaction hash. -/
theorem executeUnpauseContract_success (ch : Chain) (r : TxResult)
    (h : (executeUnpauseContract ch).1 = Except.ok r) :
    (executeUnpauseContract ch).2.map ch.submit = [Except.ok { hash := r.txHash }] := by
  unfold executeUnpauseContract at h ⊢
  dsimp only at h ⊢
  rcases hs : ch.submit { method := "unpause", args := [], gasLimit := none } with e | tx
  · rw [hs] at h; simp at h
  · rw [hs] at h
    dsimp only at h ⊢
    rcases hw : ch.wait tx.hash with e | u
    · rw [hw] at h; simp at h
    · rw [hw] at h
      dsimp only at h ⊢
      simp only [Except.ok.injEq] at h
      subst h
      simp [hs]

/-- Helper: a successful executeAddToBlocklist run submitted exactly one
call whose submission produced the echoed transaction hash, and echoes
the address. -/
theorem executeAddToBlocklist_success (data : JobData) (ch : Chain) (r : TxResult)
    (h : (executeAddToBlocklist data ch).1 = Except.ok r) :
    (executeAddToBlocklist data ch).2.map ch.submit = [Except.ok { hash := r.txHash }] ∧
    r.address = some data.address := by
  unfold executeAddToBlocklist at h ⊢
  dsimp only at h ⊢
  rcases hs : ch.submit { method := "addToBlocklist", args := [JSVal.str data.address, JSVal.str data.reason], gasLimit := none } with e | tx
  · rw [hs] at h; simp at h
  · rw [hs] at h
    dsimp only at h ⊢
    rcases hw : ch.wait tx.hash with e | u
    · rw [hw] at h; simp at h
    · rw [hw] at h
      dsimp only at h ⊢
      simp only [Except.ok.injEq] at h
      subst h
      simp [hs]

/-- Helper: a successful executeAddToBlocklistBatch run submitted exactly
one call whose submission produced the echoed transaction hash, and
echoes the address count. -/
theorem executeAddToBlocklistBatch_success (data : JobData) (ch : Chain) (r : TxResult)
    (h : (executeAddToBlocklistBatch data ch).1 = Except.ok r) :
    (executeAddToBlocklistBatch data ch).2.map ch.submit = [Except.ok { hash := r.txHash }] ∧
    r.count = some data.addresses.length := by
  unfold executeAddToBlocklistBatch at h ⊢
  dsimp only at h ⊢
  rcases hs : ch.submit { method := "addToBlocklistBatch", args := [JSVal.strList data.addresses, JSVal.strList data.reasons], gasLimit := none } with e | tx
  · rw [hs] at h; simp at h
  · rw [hs] at h
    dsimp only at h ⊢
    rcases hw : ch.wait tx.hash with e | u
    · rw [hw] at h; simp at h
    · rw [hw] at h
      dsimp only at h ⊢
      simp only [Except.ok.injEq] at h
      subst h
      simp [hs]

/-- Helper: a successful executeRemoveFromBlocklist run submitted exactly
one call whose submission produced the echoed transaction hash, and
echoes the address. -/
theorem executeRemoveFromBlocklist_success (data : JobData) (ch : Chain) (r : TxResult)
    (h : (executeRemoveFromBlocklist data ch).1 = Except.ok r) :
    (executeRemoveFromBlocklist data ch).2.map ch.submit = [Except.ok { hash := r.txHash }] ∧
    r.address = some data.address := by
  unfold executeRemoveFromBlocklist at h ⊢
  dsimp only at h ⊢
  rcases hs : ch.submit { method := "removeFromBlocklist", args := [JSVal.str data.address], gasLimit := none } with e | tx
  · rw [hs] at h; simp at h
  · rw [hs] at h
    dsimp only at h ⊢
    rcases hw : ch.wait tx.hash with e | u
    · rw [hw] at h; simp at h
    · rw [hw] at h
      dsimp only at h ⊢
      simp only [Except.ok.injEq] at h
      subst h
      simp [hs]

/-- Helper: a successful executeWithdrawFees run submitted exactly one
call whose submission produced the echoed transaction hash. -/
theorem executeWithdrawFees_success (ch : Chain) (r : TxResult)
    (h : (executeWithdrawFees ch).1 = Except.ok r) :
    (executeWithdrawFees ch).2.map ch.submit = [Except.ok { hash := r.txHash }] := by
  unfold executeWithdrawFees at h ⊢
  dsimp only at h ⊢
  rcases hs : ch.submit { method := "withdrawPlatformFees", args := [], gasLimit := none } with e | tx
  · rw [hs] at h; simp at h
  · rw [hs] at h
    dsimp only at h ⊢
    rcases hw : ch.wait tx.hash with e | u
    · rw [hw] at h; simp at h
    · rw [hw] at h
      dsimp only at h ⊢
      simp only [Except.ok.injEq] at h
      subst h
      simp [hs]

/-- Helper: a successful executeArchiveRaffles run submitted exactly one
call whose submission produced the echoed transaction hash, and echoes
the raffle-id count. -/
theorem executeArchiveRaffles_success (data : JobData) (ch : Chain) (r : TxResult)
    (h : (executeArchiveRaffles data ch).1 = Except.ok r) :
    (executeArchiveRaffles data ch).2.map ch.submit = [Except.ok { hash := r.txHash }] ∧
    r.count = some data.raffleIds.length := by
  unfold executeArchiveRaffles at h ⊢
  dsimp only at h ⊢
  rcases hs : ch.submit { method := "archiveRaffles", args := [JSVal.numList data.raffleIds], gasLimit := none } with e | tx
  · rw [hs] at h; simp at h
  · rw [hs] at h
    dsimp only at h ⊢
    rcases hw : ch.wait tx.hash with e | u
    · rw [hw] at h; simp at h
    · rw [hw] at h
      dsimp only at h ⊢
      simp only [Except.ok.injEq] at h
      subst h
      simp [hs]

/-- C7.  For every one of the eleven job types, a successful run of
executeTransaction returns a result record whose transaction hash is the
hash produced by the single submitted chain call, together with the
job-specific echo fields: referenceId for create-raffle, raffleId for
execute-raffle, cancel-raffle and execute-refund, address for the single
blocklist add and remove, and count for the batch blocklist and archive. -/
theorem c7_result_records (data : JobData) (ch : Chain)
    (r1 r2 r3 r4 r5 r6 r7 r8 r9 r10 r11 : TxResult)
    (h1 : (executeTransaction "create-raffle" data ch).1 = Except.ok r1)
    (h2 : (executeTransaction "execute-raffle" data ch).1 = Except.ok r2)
    (h3 : (executeTransaction "cancel-raffle" data ch).1 = Except.ok r3)
    (h4 : (executeTransaction "execute-refund" data ch).1 = Except.ok r4)
    (h5 : (executeTransaction "pause-contract" data ch).1 = Except.ok r5)
    (h6 : (executeTransaction "unpause-contract" data ch).1 = Except.ok r6)
    (h7 : (executeTransaction "add-to-blocklist" data ch).1 = Except.ok r7)
    (h8 : (executeTransaction "add-to-blocklist-batch" data ch).1 = Except.ok r8)
    (h9 : (executeTransaction "remove-from-blocklist" data ch).1 = Except.ok r9)
    (h10 : (executeTransaction "withdraw-fees" data ch).1 = Except.ok r10)
    (h11 : (executeTransaction "archive-raffles" data ch).1 = Except.ok r11) :
    ((executeTransaction "create-raffle" data ch).2.map ch.submit =
        [Except.ok { hash := r1.txHash }] ∧
      r1.referenceId = some (toString data.referenceId)) ∧
    ((executeTransaction "execute-raffle" data ch).2.map ch.submit =
        [Except.ok { hash := r2.txHash }] ∧
      r2.raffleId = some (toString data.raffleId)) ∧
    ((executeTransaction "cancel-raffle" data ch).2.map ch.submit =
        [Except.ok { hash := r3.txHash }] ∧
      r3.raffleId = some (toString data.raffleId)) ∧
    ((executeTransaction "execute-refund" data ch).2.map ch.submit =
        [Except.ok { hash := r4.txHash }] ∧
      r4.raffleId = some (toString data.raffleId)) ∧
    ((executeTransaction "pause-contract" data ch).2.map ch.submit =
        [Except.ok { hash := r5.txHash }]) ∧
    ((executeTransaction "unpause-contract" data ch).2.map ch.submit =
        [Except.ok { hash := r6.txHash }]) ∧
    ((executeTransaction "add-to-blocklist" data ch).2.map ch.submit =
        [Except.ok { hash := r7.txHash }] ∧
      r7.address = some data.address) ∧
    ((executeTransaction "add-to-blocklist-batch" data ch).2.map ch.submit =
        [Except.ok { hash := r8.txHash }] ∧
      r8.count = some data.addresses.length) ∧
    ((executeTransaction "remove-from-blocklist" data ch).2.map ch.submit =
        [Except.ok { hash := r9.txHash }] ∧
      r9.address = some data.address) ∧
    ((executeTransaction "withdraw-fees" data ch).2.map ch.submit =
        [Except.ok { hash := r10.txHash }]) ∧
    ((executeTransaction "archive-raffles" data ch).2.map ch.submit =
        [Except.ok { hash := r11.txHash }] ∧
      r11.count = some data.raffleIds.length) :=
  ⟨executeCreateRaffle_success data ch r1 h1,
   executeExecuteRaffle_success data ch r2 h2,
   executeCancelRaffle_success data ch r3 h3,
   executeRefundBatch_success data ch r4 h4,
   executePauseContract_success ch r5 h5,
   executeUnpauseContract_success ch r6 h6,
   executeAddToBlocklist_success data ch r7 h7,
   executeAddToBlocklistBatch_success data ch r8 h8,
   executeRemoveFromBlocklist_success data ch r9 h9,
   executeWithdrawFees_success ch r10 h10,
   executeArchiveRaffles_success data ch r11 h11⟩

/-- C7 witness: against a chain whose every round-trip succeeds with hash
0xhash, each of the eleven job types run on the sample payload returns
0xhash as its transaction hash from its single submitted call, with the
claimed echo fields. -/
theorem c7_result_records_witness :
    ((executeTransaction "create-raffle" sampleJobData okChain).2.map okChain.submit =
        [Except.ok { hash := "0xhash" }] ∧
      (some "1" : Option String) = some (toString sampleJobData.referenceId)) ∧
    ((executeTransaction "execute-raffle" sampleJobData okChain).2.map okChain.submit =
        [Except.ok { hash := "0xhash" }] ∧
      (some "7" : Option String) = some (toString sampleJobData.raffleId)) ∧
    ((executeTransaction "cancel-raffle" sampleJobData okChain).2.map okChain.submit =
        [Except.ok { hash := "0xhash" }] ∧
      (some "7" : Option String) = some (toString sampleJobData.raffleId)) ∧
    ((executeTransaction "execute-refund" sampleJobData okChain).2.map okChain.submit =
        [Except.ok { hash := "0xhash" }] ∧
      (some "7" : Option String) = some (toString sampleJobData.raffleId)) ∧
    ((executeTransaction "pause-contract" sampleJobData okChain).2.map okChain.submit =
        [Except.ok { hash := "0xhash" }]) ∧
    ((executeTransaction "unpause-contract" sampleJobData okChain).2.map okChain.submit =
        [Except.ok { hash := "0xhash" }]) ∧
    ((executeTransaction "add-to-blocklist" sampleJobData okChain).2.map okChain.submit =
        [Except.ok { hash := "0xhash" }] ∧
      (some "0xabc" : Option String) = some sampleJobData.address) ∧
    ((executeTransaction "add-to-blocklist-batch" sampleJobData okChain).2.map okChain.submit =
        [Except.ok { hash := "0xhash" }] ∧
      (some 2 : Option Nat) = some sampleJobData.addresses.length) ∧
    ((executeTransaction "remove-from-blocklist" sampleJobData okChain).2.map okChain.submit =
        [Except.ok { hash := "0xhash" }] ∧
      (some "0xabc" : Option String) = some sampleJobData.address) ∧
    ((executeTransaction "withdraw-fees" sampleJobData okChain).2.map okChain.submit =
        [Except.ok { hash := "0xhash" }]) ∧
    ((executeTransaction "archive-raffles" sampleJobData okChain).2.map okChain.submit =
        [Except.ok { hash := "0xhash" }] ∧
      (some 3 : Option Nat) = some sampleJobData.raffleIds.length) :=
  c7_result_records sampleJobData okChain
    { txHash := "0xhash", referenceId := some "1" }
    { txHash := "0xhash", raffleId := some "7" }
    { txHash := "0xhash", raffleId := some "7" }
    { txHash := "0xhash", raffleId := some "7" }
    { txHash := "0xhash", confirmed := some true }
    { txHash := "0xhash", confirmed := some true }
    { txHash := "0xhash", address := some "0xabc", confirmed := some true }
    { txHash := "0xhash", count := some 2, confirmed := some true }
    { txHash := "0xhash", address := some "0xabc", confirmed := some true }
    { txHash := "0xhash", confirmed := some true }
    { txHash := "0xhash", count := some 3 }
    (by rfl) (by rfl) (by rfl) (by rfl) (by rfl) (by rfl) (by rfl) (by rfl) (by rfl)
    (by rfl) (by rfl)
